import Mathlib

/-!
Verification of the hepatoblastoma subtype-matcher pipeline
(`subtype_matcher_v2.py`, `agents/subtype_matcher.py`,
`agents/subtype_matcher_v3.py`, `agents/subtype_matcher_v5.py`).

The core pipeline is embedded shallowly:
* raw scores are rationals (`ℚ`), modelling the Python floats;
* `interpret_score` mirrors the labelling/formatting helper of
  `subtype_matcher_v5.py` (lines 77–84);
* backend responses are strings; `ast.literal_eval` is modelled by a
  strict recursive-descent literal reader `parseLit` covering the
  documented response fragment (double-quoted strings without escape
  sequences, integer literals, lists, string-keyed dicts), failing on
  everything else;
* the per-cluster try/except orchestration of `main` is modelled by
  `Except`-valued backends and `List.filterMap`.
-/

set_option maxRecDepth 100000

namespace SubtypeMatcher

/-- Values produced by evaluating a Python literal: the fragment of
`ast.literal_eval` results relevant to the documented response schema. -/
inductive PyLit where
  | str : String → PyLit
  | int : Int → PyLit
  | list : List PyLit → PyLit
  | dict : List (String × PyLit) → PyLit

/-- The opening-brace character, written via its code point. -/
def lbrace : Char := Char.ofNat 123

/-- The closing-brace character, written via its code point. -/
def rbrace : Char := Char.ofNat 125

/-- Whitespace characters recognised by Python's `str.strip` /
`ast.literal_eval` tokenizer (ASCII subset). -/
def isPyWs (c : Char) : Bool :=
  c = ' ' || c = '\n' || c = '\t' || c = '\r'

/-- Drop leading whitespace from a character stream. -/
def skipWs : List Char → List Char
  | [] => []
  | c :: cs => if isPyWs c then skipWs cs else c :: cs

/-- Python `str.strip()` on the character list of a string. -/
def stripChars (s : List Char) : List Char :=
  ((s.dropWhile isPyWs).reverse.dropWhile isPyWs).reverse

/-- Python `str.strip()`: remove leading and trailing whitespace. -/
def pyStrip (s : String) : String :=
  String.mk (stripChars s.data)

/-- Read the body of a double-quoted string up to the closing quote.
Escape sequences are outside the modelled fragment and fail. -/
def parseStrChars : List Char → Option (List Char × List Char)
  | [] => none
  | c :: cs =>
    if c = '\"' then some ([], cs)
    else if c = '\\' then none
    else
      match parseStrChars cs with
      | some (s, r) => some (c :: s, r)
      | none => none

/-- Split off a maximal run of decimal digits. -/
def takeDigits : List Char → (List Char × List Char)
  | [] => ([], [])
  | c :: cs =>
    if c.isDigit then
      let p := takeDigits cs
      (c :: p.1, p.2)
    else ([], c :: cs)

/-- Numeric value of a digit run. -/
def digitsToNat (ds : List Char) : Nat :=
  ds.foldl (fun a c => a * 10 + (c.toNat - 48)) 0

/-- Read an integer literal (optional minus sign, then digits). -/
def parseIntLit : List Char → Option (Int × List Char)
  | [] => none
  | c :: cs =>
    if c = '-' then
      match takeDigits cs with
      | ([], _) => none
      | (ds, r) => some (-(digitsToNat ds : Int), r)
    else
      match takeDigits (c :: cs) with
      | ([], _) => none
      | (ds, r) => some ((digitsToNat ds : Int), r)

mutual

/-- Read one literal value (string, int, list or dict), tolerating
leading whitespace, returning the value and the unconsumed remainder. -/
def parseVal : Nat → List Char → Option (PyLit × List Char)
  | 0, _ => none
  | fuel + 1, cs =>
    match skipWs cs with
    | [] => none
    | c :: rest =>
      if c = '\"' then
        match parseStrChars rest with
        | some (s, r) => some (PyLit.str (String.mk s), r)
        | none => none
      else if c = '[' then
        match skipWs rest with
        | [] => none
        | c2 :: r2 =>
          if c2 = ']' then some (PyLit.list [], r2)
          else
            match parseItems fuel (c2 :: r2) with
            | some (vs, r) => some (PyLit.list vs, r)
            | none => none
      else if c = lbrace then
        match skipWs rest with
        | [] => none
        | c2 :: r2 =>
          if c2 = rbrace then some (PyLit.dict [], r2)
          else
            match parseEntries fuel (c2 :: r2) with
            | some (es, r) => some (PyLit.dict es, r)
            | none => none
      else
        match parseIntLit (c :: rest) with
        | some (n, r) => some (PyLit.int n, r)
        | none => none

/-- Read a nonempty comma-separated item sequence, consuming the
closing `]`. -/
def parseItems : Nat → List Char → Option (List PyLit × List Char)
  | 0, _ => none
  | fuel + 1, cs =>
    match parseVal fuel cs with
    | none => none
    | some (v, r) =>
      match skipWs r with
      | [] => none
      | c :: r2 =>
        if c = ',' then
          match parseItems fuel (skipWs r2) with
          | some (vs, r3) => some (v :: vs, r3)
          | none => none
        else if c = ']' then some ([v], r2)
        else none

/-- Read a nonempty comma-separated `"key": value` sequence,
consuming the closing brace. -/
def parseEntries : Nat → List Char → Option (List (String × PyLit) × List Char)
  | 0, _ => none
  | fuel + 1, cs =>
    match cs with
    | [] => none
    | c0 :: cs1 =>
      if c0 = '\"' then
        match parseStrChars cs1 with
        | none => none
        | some (k, r1) =>
          match skipWs r1 with
          | [] => none
          | c1 :: r2 =>
            if c1 = ':' then
              match parseVal fuel r2 with
              | none => none
              | some (v, r3) =>
                match skipWs r3 with
                | [] => none
                | c :: r4 =>
                  if c = ',' then
                    match parseEntries fuel (skipWs r4) with
                    | some (es, r5) => some ((String.mk k, v) :: es, r5)
                    | none => none
                  else if c = rbrace then some ([(String.mk k, v)], r4)
                  else none
            else none
      else none

end

/-- `ast.literal_eval` on the modelled fragment: the whole input, up to
surrounding whitespace, must be a single literal; any leading or
trailing non-whitespace text is a parse failure. -/
def parseLit (s : String) : Option PyLit :=
  match parseVal (s.data.length + 1) s.data with
  | some (v, r) => if skipWs r = [] then some v else none
  | none => none

/-- Round `q` to an integer number of thousandths, ties to even — the
rounding performed by Python's `f"{value:.3f}"` format (floats are
modelled as rationals). -/
def rnd3 (q : ℚ) : ℤ :=
  if q * 1000 - (⌊q * 1000⌋ : ℚ) < 1/2 then ⌊q * 1000⌋
  else if (1:ℚ)/2 < q * 1000 - (⌊q * 1000⌋ : ℚ) then ⌊q * 1000⌋ + 1
  else if ⌊q * 1000⌋ % 2 = 0 then ⌊q * 1000⌋ else ⌊q * 1000⌋ + 1

/-- Left-pad a three-digit fractional part with zeros. -/
def pad3 (n : Nat) : String :=
  if n < 10 then "00" ++ toString n
  else if n < 100 then "0" ++ toString n
  else toString n

/-- Python's `f"{value:.3f}"`: the value rendered with exactly three
digits after the decimal point. -/
def format3 (q : ℚ) : String :=
  (if q < 0 then "-" else "")
    ++ toString ((rnd3 q).natAbs / 1000) ++ "." ++ pad3 ((rnd3 q).natAbs % 1000)

/-- The label branch of `interpret_score` (`subtype_matcher_v5.py`,
lines 78–83): `value >= 0.67 → "high"`, `value >= 0.34 →
"intermediate"`, otherwise `"low"`. -/
def scoreLabel (value : ℚ) : String :=
  if (0.67 : ℚ) ≤ value then "high"
  else if (0.34 : ℚ) ≤ value then "intermediate"
  else "low"

/-- `interpret_score` (`subtype_matcher_v5.py`, lines 77–84): label the
value and render `f"{value:.3f} ({label})"`. -/
def interpret_score (value : ℚ) : String :=
  format3 value ++ " (" ++ scoreLabel value ++ ")"

/-- The degraded record built in the `except` branch of the resolver
(`subtype_matcher_v2.py` lines 69–73, `subtype_matcher_v5.py` lines
125–129): `{"Cluster": cluster_id, "TopGenes": genes, "RawResponse":
raw_output}`. -/
def fallbackRecord (cluster_id : String) (genes : List String) (raw_output : String) : PyLit :=
  PyLit.dict
    [ ("Cluster", PyLit.str cluster_id)
    , ("TopGenes", PyLit.list (genes.map PyLit.str))
    , ("RawResponse", PyLit.str raw_output) ]

/-- The resolver: `try: ast.literal_eval(raw_output) except: fallback`
(`subtype_matcher_v2.py` lines 65–73, `subtype_matcher_v5.py` lines
121–129). `raw_output` is the backend content after `.strip()`. -/
def resolve (raw_output : String) (cluster_id : String) (genes : List String) : PyLit :=
  match parseLit raw_output with
  | some v => v
  | none => fallbackRecord cluster_id genes raw_output

/-- Whether a parsed record carries the given top-level key. -/
def hasKey (v : PyLit) (k : String) : Bool :=
  match v with
  | PyLit.dict es => es.any (fun e => e.1 = k)
  | _ => false

/-- `", ".join(genes)`: the comma-joined gene list embedded into every
prompt (`subtype_matcher_v2.py` line 59, `subtype_matcher_v5.py`
line 111). -/
def geneListVar (genes : List String) : String :=
  String.intercalate ", " genes

/-- `subtype_matcher_v2.py` template, rendered text before the cluster
id. -/
def v2Head : String :=
  "\nYou are a liver cancer expert analyzing single-cell transcriptomics data from a hepatoblastoma tumor.\n\nThe following genes are the most upregulated in cluster "

/-- `subtype_matcher_v2.py` template, rendered text between the cluster
id and the gene list. -/
def v2AfterCid : String := ":\n"

/-- `subtype_matcher_v2.py` template, rendered text after the gene
list. -/
def v2Tail : String :=
  "\n\nBased on known hepatoblastoma subtypes (fetal, embryonal, macrotrabecular, mixed), please return a JSON object with the following structure:\n\n\x7b\n  \"Cluster\": \"<cluster ID>\",\n  \"CandidateSubtype\": \"<one of fetal, embryonal, macrotrabecular, mixed>\",\n  \"TopGenes\": [<list of top marker genes>],\n  \"SupportingEvidence\": [<short bullet points explaining reasoning>],\n  \"SuggestedExperiments\": [<short list of follow-up biological experiments>]\n\x7d\n\nBe concise but accurate. Use known literature and tumor biology concepts. Return **only the JSON object**.\n"

/-- The v2 prompt: `prompt.format(cluster_id=..., gene_list=", ".join(genes))`
for the template of `subtype_matcher_v2.py` lines 19–39. -/
def buildPromptV2 (cluster_id : String) (genes : List String) : String :=
  v2Head ++ cluster_id ++ v2AfterCid ++ geneListVar genes ++ v2Tail

/-- One row of `leiden_cluster_risk_scores_scaled.csv`: the four
scaled score columns used by `subtype_matcher_v5.py`. -/
structure RiskRow where
  proliferation_score_scaled : ℚ
  stemness_score_scaled : ℚ
  immune_score_scaled : ℚ
  prognostic_score_scaled : ℚ

/-- `subtype_matcher_v5.py` line 87: interpreted proliferation scores
keyed by cluster id. -/
def proliferation_scores (table : List (String × RiskRow)) : List (String × String) :=
  table.map (fun kv => (kv.1, interpret_score kv.2.proliferation_score_scaled))

/-- `subtype_matcher_v5.py` line 88: interpreted stemness scores. -/
def stemness_scores (table : List (String × RiskRow)) : List (String × String) :=
  table.map (fun kv => (kv.1, interpret_score kv.2.stemness_score_scaled))

/-- `subtype_matcher_v5.py` line 89: interpreted immune scores. -/
def immune_scores (table : List (String × RiskRow)) : List (String × String) :=
  table.map (fun kv => (kv.1, interpret_score kv.2.immune_score_scaled))

/-- `subtype_matcher_v5.py` line 90: interpreted prognostic scores. -/
def prognostic_scores (table : List (String × RiskRow)) : List (String × String) :=
  table.map (fun kv => (kv.1, interpret_score kv.2.prognostic_score_scaled))

/-- Python `dict.get(key, default)` on an association list (dict keys
are unique, so the first match is the value). -/
def dictGet (d : List (String × String)) (k : String) (dflt : String) : String :=
  match d.find? (fun kv => kv.1 == k) with
  | some kv => kv.2
  | none => dflt

/-- v5 template, rendered text before the cluster id. -/
def v5Head : String :=
  "\nYou are a liver cancer expert analyzing single-cell transcriptomics data from a hepatoblastoma tumor.\n\nThe following genes are the most upregulated in cluster "

/-- v5 template, between the cluster id and the gene list. -/
def v5AfterCid : String := ":\n"

/-- v5 template, between the gene list and the first proliferation
score occurrence. -/
def v5AfterGenes : String :=
  "\n\nThe following normalized risk scores (scaled 0 to 1) have been computed for this cluster, with interpretations in parentheses:\n- Proliferation score: "

/-- v5 template, between the first proliferation and stemness scores. -/
def v5AfterP1 : String := "\n- Stemness score: "

/-- v5 template, between the first stemness and immune scores. -/
def v5AfterS1 : String := "\n- Immune infiltration score: "

/-- v5 template, between the first immune and prognostic scores. -/
def v5AfterI1 : String := "\n- Prognostic signature score: "

/-- v5 template, between the first prognostic score and the second
proliferation occurrence inside the JSON schema block. -/
def v5AfterG1 : String :=
  "\n\nBased on these gene markers and known hepatoblastoma subtypes (fetal, embryonal, macrotrabecular, mixed), please return a JSON object with the following structure:\n\n\x7b\n  \"Cluster\": \"<cluster ID>\",\n  \"CandidateSubtype\": \"<one of fetal, embryonal, macrotrabecular, mixed>\",\n  \"TopGenes\": [<list of top marker genes>],\n  \"ProliferationScore\": \""

/-- v5 template, between the echoed proliferation and stemness
scores. -/
def v5AfterP2 : String := "\",\n  \"StemnessScore\": \""

/-- v5 template, between the echoed stemness and immune scores. -/
def v5AfterS2 : String := "\",\n  \"ImmuneScore\": \""

/-- v5 template, between the echoed immune and prognostic scores. -/
def v5AfterI2 : String := "\",\n  \"PrognosticScore\": \""

/-- v5 template, after the echoed prognostic score. -/
def v5AfterG2 : String :=
  "\",\n  \"SupportingEvidence\": [<short bullet points explaining reasoning based on gene markers and tumor biology>],\n  \"SuggestedExperiments\": [<short list of follow-up biological experiments>]\n\x7d\n\nDo NOT interpret the scores in SupportingEvidence — just include them directly in the respective score fields above. Be concise but accurate, and return **only the JSON object**.\n"

/-- The four score strings passed as `input_vars` by
`subtype_matcher_v5.py` lines 112–115: dict lookup with default
`"0.000 (low)"`. -/
def scoreVarsV5 (table : List (String × RiskRow)) (cluster_id : String) :
    String × String × String × String :=
  ( dictGet (proliferation_scores table) cluster_id "0.000 (low)"
  , dictGet (stemness_scores table) cluster_id "0.000 (low)"
  , dictGet (immune_scores table) cluster_id "0.000 (low)"
  , dictGet (prognostic_scores table) cluster_id "0.000 (low)" )

/-- The v5 prompt: the template of `subtype_matcher_v5.py` lines 20–57
rendered with the `input_vars` of lines 109–116. Each score appears
twice (risk-score bullet list and echoed JSON schema). -/
def buildPromptV5 (table : List (String × RiskRow)) (cluster_id : String)
    (genes : List String) : String :=
  let v := scoreVarsV5 table cluster_id
  v5Head ++ cluster_id ++ v5AfterCid ++ geneListVar genes ++ v5AfterGenes
    ++ v.1 ++ v5AfterP1 ++ v.2.1 ++ v5AfterS1 ++ v.2.2.1 ++ v5AfterI1 ++ v.2.2.2
    ++ v5AfterG1 ++ v.1 ++ v5AfterP2 ++ v.2.1 ++ v5AfterS2 ++ v.2.2.1
    ++ v5AfterI2 ++ v.2.2.2 ++ v5AfterG2

/-- One persisted output document: file name and JSON payload. -/
structure OutputDoc where
  name : String
  record : PyLit

/-- `f"cluster_{cluster_id}_hypothesis.json"`: the deterministic output
document name (`subtype_matcher_v2.py` line 76, `subtype_matcher_v5.py`
line 131). -/
def outputName (cluster_id : String) : String :=
  "cluster_" ++ cluster_id ++ "_hypothesis.json"

/-- One iteration of the v5 `main` loop body (lines 99–138): build the
prompt, invoke the chain, strip and resolve the response, and emit the
document. A raised backend error is caught by the outer `except`
(lines 137–138): it is logged and no document is produced. -/
def processClusterV5 (table : List (String × RiskRow))
    (complete : String → Except String String)
    (cluster_id : String) (genes : List String) : Option OutputDoc :=
  match complete (buildPromptV5 table cluster_id genes) with
  | Except.error _ => none
  | Except.ok content =>
      some ⟨outputName cluster_id, resolve (pyStrip content) cluster_id genes⟩

/-- The v5 `main` loop (lines 96–138): process every cluster in input
order; a failed cluster contributes no document but does not stop the
iteration. -/
def runV5 (table : List (String × RiskRow))
    (complete : String → Except String String)
    (clusters : List (String × List String)) : List OutputDoc :=
  clusters.filterMap (fun c => processClusterV5 table complete c.1 c.2)

/-- One iteration of the v2 `main` loop body (lines 56–83). -/
def processClusterV2 (complete : String → Except String String)
    (cluster_id : String) (genes : List String) : Option OutputDoc :=
  match complete (buildPromptV2 cluster_id genes) with
  | Except.error _ => none
  | Except.ok content =>
      some ⟨outputName cluster_id, resolve (pyStrip content) cluster_id genes⟩

/-- The v2 `main` loop (lines 53–83). -/
def runV2 (complete : String → Except String String)
    (clusters : List (String × List String)) : List OutputDoc :=
  clusters.filterMap (fun c => processClusterV2 complete c.1 c.2)

/-- The successful response shape documented in the v2 template: the
five documented keys. -/
structure HypothesisFields where
  cluster : String
  candidateSubtype : String
  topGenes : List String
  supportingEvidence : List String
  suggestedExperiments : List String

/-- A string is plain when it contains no quote and no backslash, so
that it serializes into a literal without escape sequences. -/
def plainStr (s : String) : Bool :=
  s.data.all (fun c => !(c = '\"' || c = '\\'))

/-- Serialize a plain string as a double-quoted literal. -/
def serStr (s : String) : List Char :=
  '\"' :: s.data ++ ['\"']

/-- Serialize list items, comma-separated, no spaces. -/
def serItems : List String → List Char
  | [] => []
  | [g] => serStr g
  | g :: gs => serStr g ++ ',' :: serItems gs

/-- Serialize a list of strings as a minified list literal. -/
def serStrList (l : List String) : List Char :=
  '[' :: serItems l ++ [']']

/-- Serialize one minified `"key":value` entry. -/
def serEntry (k : String) (v : List Char) : List Char :=
  serStr k ++ ':' :: v

/-- The minified JSON-like object literal with exactly the documented
keys, as characters. -/
def mkMinifiedChars (f : HypothesisFields) : List Char :=
  lbrace :: (serEntry "Cluster" (serStr f.cluster)
    ++ ',' :: serEntry "CandidateSubtype" (serStr f.candidateSubtype)
    ++ ',' :: serEntry "TopGenes" (serStrList f.topGenes)
    ++ ',' :: serEntry "SupportingEvidence" (serStrList f.supportingEvidence)
    ++ ',' :: serEntry "SuggestedExperiments" (serStrList f.suggestedExperiments)
    ++ [rbrace])

/-- The minified JSON-like object literal with exactly the documented
keys. -/
def mkMinified (f : HypothesisFields) : String :=
  String.mk (mkMinifiedChars f)

/-- The parsed record the resolver is expected to return for a
well-formed response: every field verbatim. -/
def recordOf (f : HypothesisFields) : PyLit :=
  PyLit.dict
    [ ("Cluster", PyLit.str f.cluster)
    , ("CandidateSubtype", PyLit.str f.candidateSubtype)
    , ("TopGenes", PyLit.list (f.topGenes.map PyLit.str))
    , ("SupportingEvidence", PyLit.list (f.supportingEvidence.map PyLit.str))
    , ("SuggestedExperiments", PyLit.list (f.suggestedExperiments.map PyLit.str)) ]

/-- The fixed closed subtype set of the glossary and of every prompt
template. -/
def subtypeSet : List String :=
  ["fetal", "embryonal", "macrotrabecular", "mixed"]

/-! ## Claim theorems -/

/-- C1: the Score Interpreter labels `r ≥ 0.67` as `high`,
`0.34 ≤ r < 0.67` as `intermediate`, `r < 0.34` as `low`; boundary
values 0.34 and 0.67 fall into the higher band; the formatted output is
the value to three decimal places followed by the label in parentheses,
e.g. `interpret_score 0.72 = "0.720 (high)"`. -/
theorem interpret_score_bands (r : ℚ) :
    ((0.67 : ℚ) ≤ r → scoreLabel r = "high") ∧
    ((0.34 : ℚ) ≤ r ∧ r < 0.67 → scoreLabel r = "intermediate") ∧
    (r < (0.34 : ℚ) → scoreLabel r = "low") ∧
    interpret_score r = format3 r ++ " (" ++ scoreLabel r ++ ")" ∧
    scoreLabel (0.34 : ℚ) = "intermediate" ∧
    scoreLabel (0.67 : ℚ) = "high" ∧
    interpret_score (0.72 : ℚ) = "0.720 (high)" := by
  refine ⟨?_, ?_, ?_, rfl, ?_, ?_, ?_⟩
  · intro h
    simp [scoreLabel, h]
  · rintro ⟨h1, h2⟩
    have h3 : ¬ (0.67 : ℚ) ≤ r := by linarith
    simp [scoreLabel, h1, h3]
  · intro h
    have h1 : ¬ (0.67 : ℚ) ≤ r := by linarith
    have h2 : ¬ (0.34 : ℚ) ≤ r := by linarith
    simp [scoreLabel, h1, h2]
  · have h1 : ¬ (0.67 : ℚ) ≤ (0.34 : ℚ) := by norm_num
    have h2 : (0.34 : ℚ) ≤ (0.34 : ℚ) := le_refl _
    simp [scoreLabel, h1, h2]
  · have h1 : (0.67 : ℚ) ≤ (0.67 : ℚ) := le_refl _
    simp [scoreLabel, h1]
  · have h : rnd3 (0.72 : ℚ) = 720 := by norm_num [rnd3]
    have h2 : ¬ ((0.72 : ℚ) < 0) := by norm_num
    have h3 : ((0.67 : ℚ) ≤ 0.72) := by norm_num
    simp [interpret_score, format3, scoreLabel, h, h2, h3]
    decide

/-- C1 witness: the band implications applied at 0.9, 0.5 and 0.1. -/
theorem interpret_score_bands_witness :
    scoreLabel (0.9 : ℚ) = "high" ∧ scoreLabel (0.5 : ℚ) = "intermediate" ∧
    scoreLabel (0.1 : ℚ) = "low" :=
  ⟨(interpret_score_bands 0.9).1 (by norm_num),
   (interpret_score_bands 0.5).2.1 ⟨by norm_num, by norm_num⟩,
   (interpret_score_bands 0.1).2.2.1 (by norm_num)⟩

/-- C2: whenever structured parsing of the raw text fails, the resolver
returns the degraded record carrying exactly the cluster id, the
original gene list unchanged, and the raw text verbatim under
`RawResponse`; being a total function it never raises. -/
theorem resolve_fallback (raw cluster_id : String) (genes : List String)
    (h : parseLit raw = none) :
    resolve raw cluster_id genes = fallbackRecord cluster_id genes raw := by
  simp [resolve, h]

/-- C2 witness: the fallback on the raw text `"not a json object"`. -/
theorem resolve_fallback_witness :
    parseLit "not a json object" = none ∧
    resolve "not a json object" "3" ["AFP", "GPC3"]
      = PyLit.dict
          [ ("Cluster", PyLit.str "3")
          , ("TopGenes", PyLit.list [PyLit.str "AFP", PyLit.str "GPC3"])
          , ("RawResponse", PyLit.str "not a json object") ] :=
  ⟨rfl, resolve_fallback "not a json object" "3" ["AFP", "GPC3"] rfl⟩

/-- C6 counterexample: the success path does not require an object with
the documented keys — the bare literal `"42"` parses, so the resolver
returns it instead of routing to the fallback. -/
theorem resolve_accepts_nonobject :
    parseLit "42" = some (PyLit.int 42) ∧
    resolve "42" "7" ["AFP"] = PyLit.int 42 ∧
    PyLit.int 42 ≠ fallbackRecord "7" ["AFP"] "42" :=
  ⟨rfl, rfl, fun h => PyLit.noConfusion h⟩

/-- C6 amended: the success path accepts exactly the inputs that are,
up to surrounding whitespace, a single well-formed literal of any shape
(no key or object-shape validation); anything else — markdown fences,
leading or trailing prose — is a parse failure routed to the fallback,
with no speculative repair. -/
theorem resolve_strict (raw cluster_id : String) (genes : List String) :
    (∀ v, parseLit raw = some v → resolve raw cluster_id genes = v) ∧
    (parseLit raw = none → resolve raw cluster_id genes = fallbackRecord cluster_id genes raw) ∧
    parseLit "```json\n\x7b\"Cluster\": \"0\"\x7d\n```" = none ∧
    parseLit "\x7b\x7d trailing prose" = none ∧
    parseLit "Sure! \x7b\x7d" = none := by
  refine ⟨?_, ?_, rfl, rfl, rfl⟩
  · intro v h
    simp [resolve, h]
  · intro h
    simp [resolve, h]

/-- C6 amended witness: both branches applied at concrete inputs. -/
theorem resolve_strict_witness :
    resolve "42" "7" ["AFP"] = PyLit.int 42 ∧
    resolve "not a json object" "7" ["AFP"]
      = fallbackRecord "7" ["AFP"] "not a json object" :=
  ⟨(resolve_strict "42" "7" ["AFP"]).1 (PyLit.int 42) rfl,
   (resolve_strict "not a json object" "7" ["AFP"]).2.1 rfl⟩

/-- C8 counterexample: the pipeline performs no validation of
`CandidateSubtype`; a backend response carrying `"banana"` yields an
output document whose candidate subtype is present but outside the
fixed set. -/
theorem candidate_subtype_unvalidated :
    runV5 [] (fun _ => Except.ok "\x7b\"CandidateSubtype\": \"banana\"\x7d") [("0", ["AFP"])]
      = [⟨outputName "0", PyLit.dict [("CandidateSubtype", PyLit.str "banana")]⟩] ∧
    "banana" ∉ subtypeSet :=
  ⟨rfl, by decide⟩

/-- C8 amended: a degraded record never contains the `CandidateSubtype`
key, so it is distinguishable from a successful record by that key's
absence; the success path stores the parsed object verbatim without any
membership check, so the field lies in the fixed set only when the
backend's response put it there. -/
theorem degraded_lacks_subtype (raw cluster_id : String) (genes : List String) :
    (parseLit raw = none →
      hasKey (resolve raw cluster_id genes) "CandidateSubtype" = false) ∧
    (∀ v, parseLit raw = some v → resolve raw cluster_id genes = v) := by
  constructor
  · intro h
    simp only [resolve, h]
    rfl
  · intro v h
    simp [resolve, h]

/-- C8 amended witness: the degraded record for a concrete parse
failure has no `CandidateSubtype`; a concrete successful parse is
returned verbatim. -/
theorem degraded_lacks_subtype_witness :
    hasKey (resolve "oops" "1" ["DLK1"]) "CandidateSubtype" = false ∧
    resolve "\x7b\"CandidateSubtype\": \"fetal\"\x7d" "1" ["DLK1"]
      = PyLit.dict [("CandidateSubtype", PyLit.str "fetal")] :=
  ⟨(degraded_lacks_subtype "oops" "1" ["DLK1"]).1 rfl,
   (degraded_lacks_subtype "\x7b\"CandidateSubtype\": \"fetal\"\x7d" "1" ["DLK1"]).2 _ rfl⟩

/-- C10: the score interpreter is total over the modelled numeric
domain: every rational input — including values below 0 and above 1 —
yields the formatted string, with any value above the high threshold
labelled `high` and any negative value labelled `low`, e.g.
`interpret_score 1.5 = "1.500 (high)"` and
`interpret_score (-0.25) = "-0.250 (low)"`. -/
theorem interpret_score_total (r : ℚ) :
    interpret_score r
      = (if r < 0 then "-" else "")
          ++ toString ((rnd3 r).natAbs / 1000) ++ "." ++ pad3 ((rnd3 r).natAbs % 1000)
          ++ " (" ++ scoreLabel r ++ ")" ∧
    ((1 : ℚ) < r → scoreLabel r = "high") ∧
    (r < (0 : ℚ) → scoreLabel r = "low") ∧
    interpret_score (1.5 : ℚ) = "1.500 (high)" ∧
    interpret_score (-(0.25) : ℚ) = "-0.250 (low)" := by
  refine ⟨rfl, ?_, ?_, ?_, ?_⟩
  · intro h
    have h1 : (0.67 : ℚ) ≤ r := by linarith
    simp [scoreLabel, h1]
  · intro h
    have h1 : ¬ (0.67 : ℚ) ≤ r := by linarith
    have h2 : ¬ (0.34 : ℚ) ≤ r := by linarith
    simp [scoreLabel, h1, h2]
  · have h : rnd3 (1.5 : ℚ) = 1500 := by norm_num [rnd3]
    have h2 : ¬ ((1.5 : ℚ) < 0) := by norm_num
    have h3 : ((0.67 : ℚ) ≤ 1.5) := by norm_num
    simp [interpret_score, format3, scoreLabel, h, h2, h3]
    decide
  · have h : rnd3 (-(0.25) : ℚ) = -250 := by norm_num [rnd3]
    have h2 : (-(0.25) : ℚ) < 0 := by norm_num
    have h3 : ¬ ((0.67 : ℚ) ≤ -(0.25)) := by norm_num
    have h4 : ¬ ((0.34 : ℚ) ≤ -(0.25)) := by norm_num
    simp [interpret_score, format3, scoreLabel, h, h2, h3, h4]
    decide

/-- C10 witness: the out-of-range implications applied at 2 and −1. -/
theorem interpret_score_total_witness :
    scoreLabel (2 : ℚ) = "high" ∧ scoreLabel (-1 : ℚ) = "low" :=
  ⟨(interpret_score_total 2).2.1 (by norm_num),
   (interpret_score_total (-1)).2.2.1 (by norm_num)⟩

/-- C9: both prompt builders embed the gene list comma-joined in input
order; the join keeps duplicates; and the empty gene list still
produces the complete prompt (building is total, not an error). -/
theorem prompt_embeds_gene_join (table : List (String × RiskRow))
    (cluster_id : String) (genes : List String) :
    (∃ s t, buildPromptV2 cluster_id genes = s ++ geneListVar genes ++ t) ∧
    (∃ s t, buildPromptV5 table cluster_id genes = s ++ geneListVar genes ++ t) ∧
    geneListVar ["AFP", "AFP", "GPC3"] = "AFP, AFP, GPC3" ∧
    geneListVar [] = "" ∧
    buildPromptV2 cluster_id [] = v2Head ++ cluster_id ++ v2AfterCid ++ v2Tail := by
  refine ⟨⟨v2Head ++ cluster_id ++ v2AfterCid, v2Tail, ?_⟩, ?_, rfl, rfl, ?_⟩
  · simp [buildPromptV2, String.append_assoc]
  · refine ⟨v5Head ++ cluster_id ++ v5AfterCid,
      v5AfterGenes ++ (scoreVarsV5 table cluster_id).1 ++ v5AfterP1
        ++ (scoreVarsV5 table cluster_id).2.1 ++ v5AfterS1
        ++ (scoreVarsV5 table cluster_id).2.2.1 ++ v5AfterI1
        ++ (scoreVarsV5 table cluster_id).2.2.2 ++ v5AfterG1
        ++ (scoreVarsV5 table cluster_id).1 ++ v5AfterP2
        ++ (scoreVarsV5 table cluster_id).2.1 ++ v5AfterS2
        ++ (scoreVarsV5 table cluster_id).2.2.1 ++ v5AfterI2
        ++ (scoreVarsV5 table cluster_id).2.2.2 ++ v5AfterG2, ?_⟩
    simp [buildPromptV5, String.append_assoc]
  · have h : geneListVar [] = "" := rfl
    simp [buildPromptV2, h, String.append_empty]

/-- C5 helper: a dict lookup whose key is absent returns the default. -/
theorem dictGet_default (d : List (String × String)) (k dflt : String)
    (h : ∀ kv ∈ d, kv.1 ≠ k) : dictGet d k dflt = dflt := by
  have hf : d.find? (fun kv => kv.1 == k) = none :=
    List.find?_eq_none.mpr (fun kv hm => by simpa using h kv hm)
  simp [dictGet, hf]

/-- C5: for a cluster id absent from the risk-score table, the cluster
is not skipped — all four score variables default to `"0.000 (low)"`
and that default is embedded into the v5 prompt. -/
theorem missing_score_defaults (table : List (String × RiskRow))
    (cluster_id : String) (genes : List String)
    (h : ∀ kv ∈ table, kv.1 ≠ cluster_id) :
    scoreVarsV5 table cluster_id
      = ("0.000 (low)", "0.000 (low)", "0.000 (low)", "0.000 (low)") ∧
    ∃ s t, buildPromptV5 table cluster_id genes = s ++ "0.000 (low)" ++ t := by
  have hp : ∀ kv ∈ proliferation_scores table, kv.1 ≠ cluster_id := by
    intro kv hm
    rcases List.mem_map.mp hm with ⟨kv0, hkv0, rfl⟩
    exact h kv0 hkv0
  have hs : ∀ kv ∈ stemness_scores table, kv.1 ≠ cluster_id := by
    intro kv hm
    rcases List.mem_map.mp hm with ⟨kv0, hkv0, rfl⟩
    exact h kv0 hkv0
  have hi : ∀ kv ∈ immune_scores table, kv.1 ≠ cluster_id := by
    intro kv hm
    rcases List.mem_map.mp hm with ⟨kv0, hkv0, rfl⟩
    exact h kv0 hkv0
  have hg : ∀ kv ∈ prognostic_scores table, kv.1 ≠ cluster_id := by
    intro kv hm
    rcases List.mem_map.mp hm with ⟨kv0, hkv0, rfl⟩
    exact h kv0 hkv0
  have hv : scoreVarsV5 table cluster_id
      = ("0.000 (low)", "0.000 (low)", "0.000 (low)", "0.000 (low)") := by
    simp [scoreVarsV5, dictGet_default _ _ _ hp, dictGet_default _ _ _ hs,
      dictGet_default _ _ _ hi, dictGet_default _ _ _ hg]
  refine ⟨hv, v5Head ++ cluster_id ++ v5AfterCid ++ geneListVar genes ++ v5AfterGenes,
    v5AfterP1 ++ "0.000 (low)" ++ v5AfterS1 ++ "0.000 (low)" ++ v5AfterI1
      ++ "0.000 (low)" ++ v5AfterG1 ++ "0.000 (low)" ++ v5AfterP2 ++ "0.000 (low)"
      ++ v5AfterS2 ++ "0.000 (low)" ++ v5AfterI2 ++ "0.000 (low)" ++ v5AfterG2, ?_⟩
  simp [buildPromptV5, hv, String.append_assoc]

/-- C5 witness: a one-row table keyed `"0"` looked up with cluster id
`"1"`. -/
theorem missing_score_defaults_witness :
    scoreVarsV5 [("0", ⟨0.8, 0.9, 0.1, 0.75⟩)] "1"
      = ("0.000 (low)", "0.000 (low)", "0.000 (low)", "0.000 (low)") ∧
    ∃ s t, buildPromptV5 [("0", ⟨0.8, 0.9, 0.1, 0.75⟩)] "1" ["AFP"]
      = s ++ "0.000 (low)" ++ t :=
  missing_score_defaults [("0", ⟨0.8, 0.9, 0.1, 0.75⟩)] "1" ["AFP"]
    (fun kv hm => by rw [List.mem_singleton.mp hm]; decide)

/-- C3: per-cluster isolation — for every batch, every cluster whose
backend call returns text contributes its output document to the run's
results, regardless of errors raised for any other cluster (a raised
error is caught and iteration proceeds). -/
theorem run_isolates_failures (table : List (String × RiskRow))
    (complete : String → Except String String)
    (clusters : List (String × List String)) (cluster_id : String)
    (genes : List String) (content : String)
    (hmem : (cluster_id, genes) ∈ clusters)
    (hok : complete (buildPromptV5 table cluster_id genes) = Except.ok content) :
    (⟨outputName cluster_id, resolve (pyStrip content) cluster_id genes⟩ : OutputDoc)
      ∈ runV5 table complete clusters := by
  refine List.mem_filterMap.mpr ⟨(cluster_id, genes), hmem, ?_⟩
  simp [processClusterV5, hok]

/-- C3 witness: three clusters where the backend raises for the second;
documents are still produced for the first and the third. -/
theorem run_isolates_failures_witness :
    ((⟨outputName "0", resolve (pyStrip "not a json object") "0" ["A"]⟩ : OutputDoc)
      ∈ runV5 []
          (fun p => if p = buildPromptV5 [] "1" ["B"]
            then Except.error "APIConnectionError" else Except.ok "not a json object")
          [("0", ["A"]), ("1", ["B"]), ("2", ["C"])]) ∧
    ((⟨outputName "2", resolve (pyStrip "not a json object") "2" ["C"]⟩ : OutputDoc)
      ∈ runV5 []
          (fun p => if p = buildPromptV5 [] "1" ["B"]
            then Except.error "APIConnectionError" else Except.ok "not a json object")
          [("0", ["A"]), ("1", ["B"]), ("2", ["C"])]) :=
  ⟨run_isolates_failures [] _ _ "0" ["A"] "not a json object" (by decide) (by rfl),
   run_isolates_failures [] _ _ "2" ["C"] "not a json object" (by decide) (by rfl)⟩

/-- C4 helper: the output document name determines the cluster id. -/
theorem outputName_inj {a b : String} (h : outputName a = outputName b) : a = b := by
  have hd : "cluster_".data ++ (a.data ++ "_hypothesis.json".data)
      = "cluster_".data ++ (b.data ++ "_hypothesis.json".data) := by
    have := congrArg String.data h
    simpa [outputName, List.append_assoc] using this
  exact String.ext (List.append_cancel_right (List.append_cancel_left hd))

/-- C4 helper: a run over clusters none of which carries the given id
emits no document named after that id. -/
theorem runV5_countP_zero (table : List (String × RiskRow))
    (complete : String → Except String String)
    (clusters : List (String × List String)) (cluster_id : String)
    (h : ∀ kv ∈ clusters, kv.1 ≠ cluster_id) :
    (runV5 table complete clusters).countP
      (fun d => d.name == outputName cluster_id) = 0 := by
  induction clusters with
  | nil => rfl
  | cons c cs ih =>
    have hc : c.1 ≠ cluster_id := h c (List.mem_cons_self c cs)
    have hcs : ∀ kv ∈ cs, kv.1 ≠ cluster_id :=
      fun kv hm => h kv (List.mem_cons_of_mem _ hm)
    show (List.filterMap _ (c :: cs)).countP _ = 0
    rw [List.filterMap_cons]
    cases hp : processClusterV5 table complete c.1 c.2 with
    | none => simpa [runV5] using ih hcs
    | some d =>
      have hname : d.name = outputName c.1 := by
        unfold processClusterV5 at hp
        cases hb : complete (buildPromptV5 table c.1 c.2) with
        | error e => rw [hb] at hp; cases hp
        | ok content => rw [hb] at hp; cases hp; rfl
      have hfalse : (d.name == outputName cluster_id) = false := by
        rw [hname]
        simp only [beq_eq_false_iff_ne, ne_eq]
        exact fun h' => hc (outputName_inj h')
      simpa [List.countP_cons, hfalse, runV5] using ih hcs

/-- C4: assuming the backend returns some text for a cluster present in
the marker-gene input (whose cluster ids are distinct, as keys of a
dict), the batch run produces exactly one output document named
deterministically `cluster_<id>_hypothesis.json`; no cluster is
silently dropped. -/
theorem run_exactly_one_doc (table : List (String × RiskRow))
    (complete : String → Except String String)
    (clusters : List (String × List String)) (cluster_id : String)
    (genes : List String) (content : String)
    (hnodup : (clusters.map Prod.fst).Nodup)
    (hmem : (cluster_id, genes) ∈ clusters)
    (hok : complete (buildPromptV5 table cluster_id genes) = Except.ok content) :
    (runV5 table complete clusters).countP
      (fun d => d.name == outputName cluster_id) = 1 := by
  induction clusters with
  | nil => cases hmem
  | cons c cs ih =>
    obtain ⟨cid, gs⟩ := c
    show (List.filterMap _ ((cid, gs) :: cs)).countP _ = 1
    rw [List.filterMap_cons]
    rcases List.mem_cons.mp hmem with heq | hmem'
    · have h1 : cluster_id = cid := congrArg Prod.fst heq
      have h2 : genes = gs := congrArg Prod.snd heq
      subst h1
      subst h2
      have hzero : ∀ kv ∈ cs, kv.1 ≠ cluster_id := by
        intro kv hm heq'
        have : cluster_id ∈ cs.map Prod.fst := heq' ▸ List.mem_map_of_mem Prod.fst hm
        exact (List.nodup_cons.mp (by simpa using hnodup)).1 this
      have hproc : processClusterV5 table complete cluster_id genes
          = some ⟨outputName cluster_id, resolve (pyStrip content) cluster_id genes⟩ := by
        simp [processClusterV5, hok]
      rw [hproc]
      simpa [List.countP_cons, runV5] using runV5_countP_zero table complete cs cluster_id hzero
    · have hcid : cid ≠ cluster_id := by
        intro heq'
        have hmm : cluster_id ∈ List.map Prod.fst cs :=
          List.mem_map_of_mem Prod.fst hmem'
        exact (List.nodup_cons.mp (by simpa using hnodup)).1 (heq' ▸ hmm)
      have hrest : (runV5 table complete cs).countP
          (fun d => d.name == outputName cluster_id) = 1 :=
        ih (List.nodup_cons.mp (by simpa using hnodup)).2 hmem'
      cases hp : processClusterV5 table complete cid gs with
      | none => simpa [runV5] using hrest
      | some d =>
        have hname : d.name = outputName cid := by
          unfold processClusterV5 at hp
          cases hb : complete (buildPromptV5 table cid gs) with
          | error e => rw [hb] at hp; cases hp
          | ok content2 => rw [hb] at hp; cases hp; rfl
        have hfalse : (d.name == outputName cluster_id) = false := by
          rw [hname]
          simp only [beq_eq_false_iff_ne, ne_eq]
          exact fun h' => hcid (outputName_inj h')
        simpa [List.countP_cons, hfalse, runV5] using hrest

/-- C4 witness: a concrete two-cluster run emits exactly one document
for cluster `"0"`. -/
theorem run_exactly_one_doc_witness :
    (runV5 [] (fun _ => Except.ok "not a json object") [("0", ["A"]), ("1", ["B"])]).countP
      (fun d => d.name == outputName "0") = 1 :=
  run_exactly_one_doc [] _ _ "0" ["A"] "not a json object"
    (by decide) (by decide) (by rfl)

/-! ## Resolver round-trip lemmas (C7) -/

theorem strMk_data (s : String) : String.mk s.data = s := rfl

theorem skipWs_cons (c : Char) (cs : List Char) (h : isPyWs c = false) :
    skipWs (c :: cs) = c :: cs := by
  simp [skipWs, h]

theorem plainStr_iff (s : String) :
    plainStr s = true ↔ ∀ c ∈ s.data, ¬ c = '\"' ∧ ¬ c = '\\' := by
  simp [plainStr]

theorem parseStrChars_closed (l : List Char) (rest : List Char)
    (h : ∀ c ∈ l, ¬ c = '\"' ∧ ¬ c = '\\') :
    parseStrChars (l ++ '\"' :: rest) = some (l, rest) := by
  induction l with
  | nil => simp [parseStrChars]
  | cons c cs ih =>
    obtain ⟨h1, h2⟩ := h c (List.mem_cons_self c cs)
    simp [parseStrChars, h1, h2, ih (fun c hm => h c (List.mem_cons_of_mem _ hm))]

theorem parseVal_str (s : String) (f : Nat) (r : List Char) (hf : 1 ≤ f)
    (hs : plainStr s = true) :
    parseVal f (serStr s ++ r) = some (PyLit.str s, r) := by
  obtain ⟨g, rfl⟩ : ∃ g, f = g + 1 := ⟨f - 1, by omega⟩
  have harr : serStr s ++ r = '\"' :: (s.data ++ '\"' :: r) := by simp [serStr]
  rw [harr]
  simp [parseVal, skipWs, isPyWs,
    parseStrChars_closed s.data r ((plainStr_iff s).mp hs), strMk_data]

theorem skipWs_serItems (g : String) (gs : List String) (r : List Char) :
    skipWs (serItems (g :: gs) ++ r) = serItems (g :: gs) ++ r := by
  cases gs <;> simp [serItems, serStr, skipWs, isPyWs]

theorem parseItems_strs (gs : List String) : ∀ (f : Nat) (rest : List Char),
    gs ≠ [] → gs.length + 1 ≤ f → (∀ g ∈ gs, plainStr g = true) →
    parseItems f (serItems gs ++ ']' :: rest) = some (gs.map PyLit.str, rest) := by
  induction gs with
  | nil => intro f rest hne _ _; exact absurd rfl hne
  | cons g gs ih =>
    intro f rest _ hf hp
    have hf2 : gs.length + 2 ≤ f := by simpa using hf
    obtain ⟨f2, rfl⟩ : ∃ f2, f = f2 + 1 := ⟨f - 1, by omega⟩
    cases gs with
    | nil =>
      show parseItems (f2 + 1) (serStr g ++ ']' :: rest) = _
      simp only [parseItems]
      rw [parseVal_str g f2 (']' :: rest) (by omega) (hp g (by simp))]
      simp [skipWs, isPyWs]
    | cons g2 gs2 =>
      show parseItems (f2 + 1) ((serStr g ++ ',' :: serItems (g2 :: gs2)) ++ ']' :: rest) = _
      rw [show (serStr g ++ ',' :: serItems (g2 :: gs2)) ++ ']' :: rest
          = serStr g ++ (',' :: (serItems (g2 :: gs2) ++ ']' :: rest)) from by simp]
      simp only [parseItems]
      rw [parseVal_str g f2 _ (by omega) (hp g (by simp))]
      have h1 : skipWs (',' :: (serItems (g2 :: gs2) ++ ']' :: rest))
          = ',' :: (serItems (g2 :: gs2) ++ ']' :: rest) := skipWs_cons _ _ rfl
      have h2 := skipWs_serItems g2 gs2 (']' :: rest)
      have h3 := ih f2 rest (by simp) (by simpa using hf2)
        (fun x hm => hp x (List.mem_cons_of_mem _ hm))
      simp [h1, h2, h3]

theorem parseVal_strList (gs : List String) (f : Nat) (r : List Char)
    (hf : gs.length + 2 ≤ f) (hp : ∀ g ∈ gs, plainStr g = true) :
    parseVal f (serStrList gs ++ r) = some (PyLit.list (gs.map PyLit.str), r) := by
  obtain ⟨f2, rfl⟩ : ∃ f2, f = f2 + 1 := ⟨f - 1, by omega⟩
  rw [show serStrList gs ++ r = '[' :: (serItems gs ++ ']' :: r) from by simp [serStrList]]
  cases gs with
  | nil => simp [parseVal, serItems, skipWs, isPyWs]
  | cons g1 gs1 =>
    simp only [parseVal]
    have h0 : skipWs ('[' :: (serItems (g1 :: gs1) ++ ']' :: r))
        = '[' :: (serItems (g1 :: gs1) ++ ']' :: r) := skipWs_cons _ _ rfl
    have h2 := skipWs_serItems g1 gs1 (']' :: r)
    have h3 := parseItems_strs (g1 :: gs1) f2 r (by simp) (by simpa using hf) hp
    have hhead : ∃ t, serItems (g1 :: gs1) = '\"' :: t := by
      cases gs1 with
      | nil => exact ⟨g1.data ++ ['\"'], by simp [serItems, serStr]⟩
      | cons h4 t4 => exact ⟨g1.data ++ '\"' :: ',' :: serItems (h4 :: t4), by simp [serItems, serStr]⟩
    obtain ⟨t, ht⟩ := hhead
    rw [h0]
    rw [ht] at h3
    simp only [List.cons_append] at h3
    simp [ht, skipWs, isPyWs, h3]

theorem parseEntries_last (k : String) (sv : List Char) (v : PyLit) (n : Nat)
    (hk : plainStr k = true)
    (hv : ∀ f r, n ≤ f → parseVal f (sv ++ r) = some (v, r)) :
    ∀ (f : Nat) (rest : List Char), n + 1 ≤ f →
    parseEntries f (serEntry k sv ++ rbrace :: rest) = some ([(k, v)], rest) := by
  intro f rest hf
  obtain ⟨f2, rfl⟩ : ∃ f2, f = f2 + 1 := ⟨f - 1, by omega⟩
  rw [show serEntry k sv ++ rbrace :: rest
      = '\"' :: (k.data ++ '\"' :: (':' :: (sv ++ rbrace :: rest))) from by simp [serEntry, serStr]]
  simp only [parseEntries]
  have hstr := parseStrChars_closed k.data (':' :: (sv ++ rbrace :: rest)) ((plainStr_iff k).mp hk)
  have hval := hv f2 (rbrace :: rest) (by omega)
  have hws : isPyWs rbrace = false := by decide
  have hne : ¬ (rbrace = ',') := by decide
  simp [hstr, hval, skipWs, isPyWs, strMk_data, hws, hne]
  have hprop : ¬ (((rbrace = ' ' ∨ rbrace = '\n') ∨ rbrace = '\t') ∨ rbrace = '\x0d') := by decide
  simp [hprop, hne]

theorem parseEntries_cons (k : String) (sv : List Char) (v : PyLit)
    (es : List (String × PyLit)) (tail : List Char) (n m : Nat)
    (hk : plainStr k = true)
    (hv : ∀ f r, n ≤ f → parseVal f (sv ++ r) = some (v, r))
    (hhead : ∃ t, tail = '\"' :: t)
    (hrest : ∀ f r, m ≤ f → parseEntries f (tail ++ r) = some (es, r)) :
    ∀ (f : Nat) (rest : List Char), n + m + 1 ≤ f →
    parseEntries f ((serEntry k sv ++ ',' :: tail) ++ rest) = some ((k, v) :: es, rest) := by
  intro f rest hf
  obtain ⟨f2, rfl⟩ : ∃ f2, f = f2 + 1 := ⟨f - 1, by omega⟩
  rw [show (serEntry k sv ++ ',' :: tail) ++ rest
      = '\"' :: (k.data ++ '\"' :: (':' :: (sv ++ ',' :: (tail ++ rest)))) from by
    simp [serEntry, serStr]]
  obtain ⟨t, ht⟩ := hhead
  subst ht
  simp only [parseEntries]
  have hstr := parseStrChars_closed k.data (':' :: (sv ++ ',' :: (('\"' :: t) ++ rest)))
    ((plainStr_iff k).mp hk)
  have hval := hv f2 (',' :: (('\"' :: t) ++ rest)) (by omega)
  have htail := hrest f2 rest (by omega)
  simp only [List.cons_append] at hstr hval htail
  simp [hstr, hval, skipWs, isPyWs, strMk_data, htail]

theorem serItems_len (gs : List String) : gs.length ≤ (serItems gs).length := by
  induction gs with
  | nil => simp [serItems]
  | cons g gs ih =>
    cases gs with
    | nil => simp [serItems, serStr]
    | cons g2 gs2 =>
      have : (g2 :: gs2).length ≤ (serItems (g2 :: gs2)).length := ih
      simp only [serItems, serStr] at this ⊢
      simp only [List.length_append, List.length_cons]
      simp at this ⊢
      omega

theorem serEntry_exists (k : String) (sv X : List Char) :
    ∃ t, (serEntry k sv) ++ X = '\"' :: t :=
  ⟨k.data ++ '\"' :: ':' :: (sv ++ X), by simp [serEntry, serStr]⟩

theorem mkMinified_len (f : HypothesisFields) :
    f.topGenes.length + f.supportingEvidence.length + f.suggestedExperiments.length + 13
      ≤ (mkMinifiedChars f).length := by
  have ha := serItems_len f.topGenes
  have hb := serItems_len f.supportingEvidence
  have hc := serItems_len f.suggestedExperiments
  have hd1 : ("Cluster".data).length = 7 := rfl
  have hd2 : ("CandidateSubtype".data).length = 16 := rfl
  have hd3 : ("TopGenes".data).length = 8 := rfl
  have hd4 : ("SupportingEvidence".data).length = 18 := rfl
  have hd5 : ("SuggestedExperiments".data).length = 20 := rfl
  simp only [mkMinifiedChars, serEntry, serStr, serStrList, List.length_cons,
    List.length_append, List.append_assoc, List.cons_append, List.length_nil]
  omega

theorem parseLit_mkMinified (f : HypothesisFields)
    (h1 : plainStr f.cluster = true) (h2 : plainStr f.candidateSubtype = true)
    (h3 : ∀ g ∈ f.topGenes, plainStr g = true)
    (h4 : ∀ g ∈ f.supportingEvidence, plainStr g = true)
    (h5 : ∀ g ∈ f.suggestedExperiments, plainStr g = true) :
    parseLit (mkMinified f) = some (recordOf f) := by
  have hv1 : ∀ fu r, 1 ≤ fu → parseVal fu (serStr f.cluster ++ r)
      = some (PyLit.str f.cluster, r) :=
    fun fu r hf => parseVal_str f.cluster fu r hf h1
  have hv2 : ∀ fu r, 1 ≤ fu → parseVal fu (serStr f.candidateSubtype ++ r)
      = some (PyLit.str f.candidateSubtype, r) :=
    fun fu r hf => parseVal_str f.candidateSubtype fu r hf h2
  have hv3 : ∀ fu r, f.topGenes.length + 2 ≤ fu →
      parseVal fu (serStrList f.topGenes ++ r)
        = some (PyLit.list (f.topGenes.map PyLit.str), r) :=
    fun fu r hf => parseVal_strList f.topGenes fu r hf h3
  have hv4 : ∀ fu r, f.supportingEvidence.length + 2 ≤ fu →
      parseVal fu (serStrList f.supportingEvidence ++ r)
        = some (PyLit.list (f.supportingEvidence.map PyLit.str), r) :=
    fun fu r hf => parseVal_strList f.supportingEvidence fu r hf h4
  have hv5 : ∀ fu r, f.suggestedExperiments.length + 2 ≤ fu →
      parseVal fu (serStrList f.suggestedExperiments ++ r)
        = some (PyLit.list (f.suggestedExperiments.map PyLit.str), r) :=
    fun fu r hf => parseVal_strList f.suggestedExperiments fu r hf h5
  have e5 := parseEntries_last "SuggestedExperiments" (serStrList f.suggestedExperiments)
    (PyLit.list (f.suggestedExperiments.map PyLit.str)) (f.suggestedExperiments.length + 2)
    (by decide) hv5
  have t5 : ∀ fu r, f.suggestedExperiments.length + 3 ≤ fu →
      parseEntries fu
        ((serEntry "SuggestedExperiments" (serStrList f.suggestedExperiments) ++ [rbrace]) ++ r)
        = some ([("SuggestedExperiments",
            PyLit.list (f.suggestedExperiments.map PyLit.str))], r) := by
    intro fu r hf
    rw [show (serEntry "SuggestedExperiments" (serStrList f.suggestedExperiments) ++ [rbrace]) ++ r
        = serEntry "SuggestedExperiments" (serStrList f.suggestedExperiments) ++ rbrace :: r
        from by simp]
    exact e5 fu r (by omega)
  have t4 := parseEntries_cons "SupportingEvidence" (serStrList f.supportingEvidence)
    (PyLit.list (f.supportingEvidence.map PyLit.str))
    [("SuggestedExperiments", PyLit.list (f.suggestedExperiments.map PyLit.str))]
    (serEntry "SuggestedExperiments" (serStrList f.suggestedExperiments) ++ [rbrace])
    (f.supportingEvidence.length + 2) (f.suggestedExperiments.length + 3)
    (by decide) hv4 (serEntry_exists _ _ _) t5
  have t3 := parseEntries_cons "TopGenes" (serStrList f.topGenes)
    (PyLit.list (f.topGenes.map PyLit.str))
    [("SupportingEvidence", PyLit.list (f.supportingEvidence.map PyLit.str)),
     ("SuggestedExperiments", PyLit.list (f.suggestedExperiments.map PyLit.str))]
    (serEntry "SupportingEvidence" (serStrList f.supportingEvidence)
      ++ ',' :: (serEntry "SuggestedExperiments" (serStrList f.suggestedExperiments) ++ [rbrace]))
    (f.topGenes.length + 2)
    (f.supportingEvidence.length + 2 + (f.suggestedExperiments.length + 3) + 1)
    (by decide) hv3 (serEntry_exists _ _ _) t4
  have t2 := parseEntries_cons "CandidateSubtype" (serStr f.candidateSubtype)
    (PyLit.str f.candidateSubtype)
    [("TopGenes", PyLit.list (f.topGenes.map PyLit.str)),
     ("SupportingEvidence", PyLit.list (f.supportingEvidence.map PyLit.str)),
     ("SuggestedExperiments", PyLit.list (f.suggestedExperiments.map PyLit.str))]
    (serEntry "TopGenes" (serStrList f.topGenes)
      ++ ',' :: (serEntry "SupportingEvidence" (serStrList f.supportingEvidence)
        ++ ',' :: (serEntry "SuggestedExperiments" (serStrList f.suggestedExperiments)
          ++ [rbrace])))
    1
    (f.topGenes.length + 2
      + (f.supportingEvidence.length + 2 + (f.suggestedExperiments.length + 3) + 1) + 1)
    (by decide) hv2 (serEntry_exists _ _ _) t3
  have t1 := parseEntries_cons "Cluster" (serStr f.cluster) (PyLit.str f.cluster)
    [("CandidateSubtype", PyLit.str f.candidateSubtype),
     ("TopGenes", PyLit.list (f.topGenes.map PyLit.str)),
     ("SupportingEvidence", PyLit.list (f.supportingEvidence.map PyLit.str)),
     ("SuggestedExperiments", PyLit.list (f.suggestedExperiments.map PyLit.str))]
    (serEntry "CandidateSubtype" (serStr f.candidateSubtype)
      ++ ',' :: (serEntry "TopGenes" (serStrList f.topGenes)
        ++ ',' :: (serEntry "SupportingEvidence" (serStrList f.supportingEvidence)
          ++ ',' :: (serEntry "SuggestedExperiments" (serStrList f.suggestedExperiments)
            ++ [rbrace]))))
    1
    (1 + (f.topGenes.length + 2
      + (f.supportingEvidence.length + 2 + (f.suggestedExperiments.length + 3) + 1) + 1) + 1)
    (by decide) hv1 (serEntry_exists _ _ _) t2
  have hlen := mkMinified_len f
  have hmain := t1 ((mkMinifiedChars f).length) [] (by omega)
  rw [List.append_nil] at hmain
  have hval : parseVal ((mkMinifiedChars f).length + 1) (mkMinifiedChars f)
      = some (recordOf f, []) := by
    obtain ⟨t0, ht0⟩ := serEntry_exists "Cluster" (serStr f.cluster)
      (',' :: (serEntry "CandidateSubtype" (serStr f.candidateSubtype)
        ++ ',' :: (serEntry "TopGenes" (serStrList f.topGenes)
          ++ ',' :: (serEntry "SupportingEvidence" (serStrList f.supportingEvidence)
            ++ ',' :: (serEntry "SuggestedExperiments" (serStrList f.suggestedExperiments)
              ++ [rbrace])))))
    rw [show mkMinifiedChars f = lbrace
        :: (serEntry "Cluster" (serStr f.cluster)
          ++ ',' :: (serEntry "CandidateSubtype" (serStr f.candidateSubtype)
            ++ ',' :: (serEntry "TopGenes" (serStrList f.topGenes)
              ++ ',' :: (serEntry "SupportingEvidence" (serStrList f.supportingEvidence)
                ++ ',' :: (serEntry "SuggestedExperiments" (serStrList f.suggestedExperiments)
                  ++ [rbrace]))))) from by
      simp [mkMinifiedChars, List.append_assoc, List.cons_append]]
    simp only [parseVal]
    rw [ht0] at hmain ⊢
    have hq1 : isPyWs lbrace = false := by decide
    have hq2 : ¬ (lbrace = '\"') := by decide
    have hq3 : ¬ (lbrace = '[') := by decide
    have hq0 : ¬ (((lbrace = ' ' ∨ lbrace = '\n') ∨ lbrace = '\t') ∨ lbrace = '\x0d') := by
      decide
    have hq4 : ¬ ('\"' = rbrace) := by decide
    have hlen2 : (mkMinifiedChars f).length = t0.length + 2 := by
      rw [show mkMinifiedChars f = lbrace
          :: (serEntry "Cluster" (serStr f.cluster)
            ++ ',' :: (serEntry "CandidateSubtype" (serStr f.candidateSubtype)
              ++ ',' :: (serEntry "TopGenes" (serStrList f.topGenes)
                ++ ',' :: (serEntry "SupportingEvidence" (serStrList f.supportingEvidence)
                  ++ ',' :: (serEntry "SuggestedExperiments" (serStrList f.suggestedExperiments)
                    ++ [rbrace]))))) from by
        simp [mkMinifiedChars, List.append_assoc, List.cons_append]]
      rw [ht0]
      simp
    rw [hlen2] at hmain
    have hmain2 : parseEntries (t0.length + 1 + 1) ('\"' :: t0)
        = some ([("Cluster", PyLit.str f.cluster),
            ("CandidateSubtype", PyLit.str f.candidateSubtype),
            ("TopGenes", PyLit.list (List.map PyLit.str f.topGenes)),
            ("SupportingEvidence", PyLit.list (List.map PyLit.str f.supportingEvidence)),
            ("SuggestedExperiments", PyLit.list (List.map PyLit.str f.suggestedExperiments))], []) :=
      hmain
    simp [skipWs, isPyWs, hq0, hq1, hq2, hq3, hq4, hmain2, recordOf]
  unfold parseLit
  rw [show (mkMinified f).data = mkMinifiedChars f from rfl]
  rw [hval]
  simp [skipWs]


/-- C7: resolver round-trip — for raw text equal to a minified
JSON-like object literal with exactly the documented keys (plain
strings, no escape sequences) and a candidate subtype drawn from the
fixed set, `resolve` returns the parsed record with every field
verbatim: gene names are not re-encoded and list order is preserved. -/
theorem resolve_round_trip (f : HypothesisFields) (cluster_id : String) (genes : List String)
    (hsub : f.candidateSubtype ∈ subtypeSet)
    (h1 : plainStr f.cluster = true) (h2 : plainStr f.candidateSubtype = true)
    (h3 : ∀ g ∈ f.topGenes, plainStr g = true)
    (h4 : ∀ g ∈ f.supportingEvidence, plainStr g = true)
    (h5 : ∀ g ∈ f.suggestedExperiments, plainStr g = true) :
    resolve (mkMinified f) cluster_id genes = recordOf f := by
  simp [resolve, parseLit_mkMinified f h1 h2 h3 h4 h5]

/-- C7 witness: a concrete minified literal with subtype `embryonal`
resolves to the record with all fields verbatim. -/
theorem resolve_round_trip_witness :
    resolve (mkMinified ⟨"0", "embryonal", ["AFP", "GPC3", "DLK1"],
        ["fetal-like marker expression"], ["qPCR validation"]⟩) "0" ["AFP"]
      = recordOf ⟨"0", "embryonal", ["AFP", "GPC3", "DLK1"],
        ["fetal-like marker expression"], ["qPCR validation"]⟩ :=
  resolve_round_trip _ "0" ["AFP"] (by decide) (by decide) (by decide)
    (by decide) (by decide) (by decide)

end SubtypeMatcher
